import Mathlib

/-
Shallow embedding of the BSMD repository:
  * src/layers/identification/identification.py  (User identity layer over the ledger)
  * src/use_cases/simulated_annealing/chief_node.py  (master-side annealing controller)

Python floats are modelled as real numbers; the pseudo-random draws of one
iteration are passed in explicitly, so every theorem quantifies over all
possible outcomes of the random number generator.
-/

namespace BSMD

/-! ## identification.py -/

/-- A domain, as documented in `layers/admin/administrator.py` docstrings:
`Domain('id_name', 'default_role')` with attributes `id_name` and `default_role`. -/
structure Domain where
  id_name : String
  default_role : String

/-- A `User` as built by `User.__init__`: `self.name = name`, `self.domain = domain`
(a `Domain` object, whose `id_name` is a string). -/
structure User where
  name : String
  domain : Domain

/-- A Python value that can appear in the attribute/concatenation expressions of
`identification.py`: either a string or a `Domain` object. -/
inductive PyVal where
  | vstr : String → PyVal
  | vdom : Domain → PyVal

/-- Python attribute lookup `x.id_name`: succeeds on a `Domain` object, raises
`AttributeError` on a string (strings have no attribute `id_name`). -/
def attr_id_name : PyVal → Except String String
  | .vdom d => .ok d.id_name
  | .vstr _ => .error "AttributeError: str object has no attribute id_name"

/-- Python string concatenation `s + x`: succeeds when `x` is a string, raises
`TypeError` when `x` is a `Domain` object. -/
def pyStrAdd (s : String) : PyVal → Except String String
  | .vstr t => .ok (s ++ t)
  | .vdom _ => .error "TypeError: can only concatenate str to str"

/-- The observable ledger-side effects of one `User` method, in program order. -/
inductive TxAction where
  | buildTx (account_id key value : String)
  | signTx (private_key : String)
  | submitTx
  | buildQuery (account_id : String)
  | signQuery (private_key : String)
  | sendQuery
  deriving DecidableEq

/-- `User.set_detail` (identification.py lines 321-347): build the account id,
build a `SetAccountDetail` transaction, sign it, submit it.  There is no check
of the value size anywhere before submission. -/
def set_detail (u : User) (detail_key detail_value private_key : String) :
    List TxAction :=
  let account_id := u.name ++ "@" ++ u.domain.id_name
  [TxAction.buildTx account_id detail_key detail_value,
   TxAction.signTx private_key,
   TxAction.submitTx]

/-- `User.set_detail_to` (identification.py lines 352-377): evaluates
`account_id = user.name + '@' + user.domain`, concatenating the target's
`Domain` object to a string; only if that succeeds would it build, sign and
submit the transaction.  There is no check of the value size. -/
def set_detail_to (self_u target : User) (detail_key detail_value private_key : String) :
    Except String (List TxAction) := do
  let _account := self_u.name ++ "@" ++ self_u.domain.id_name
  let account_id ← pyStrAdd (target.name ++ "@") (PyVal.vdom target.domain)
  pure [TxAction.buildTx account_id detail_key detail_value,
        TxAction.signTx private_key,
        TxAction.submitTx]

/-- `User.get_all_details` (identification.py lines 180-217): evaluates
`account_id = self.name + '@' + self.domain.id_name.id_name`; the inner
`self.domain.id_name` is a string, so the outer `.id_name` lookup raises;
only on success would the query be built, signed and sent. -/
def get_all_details (u : User) (private_key : String) :
    Except String (List TxAction) := do
  let idn ← attr_id_name (PyVal.vstr u.domain.id_name)
  let account_id := u.name ++ "@" ++ idn
  pure [TxAction.buildQuery account_id,
        TxAction.signQuery private_key,
        TxAction.sendQuery]

/-! ## chief_node.py : module level state -/

/-- `workers = []` (chief_node.py line 18).  The module never appends to this
list (the connection loop at lines 20-22 appends to `workers_proxies` only). -/
def workers : List String := []

/-- `new_state` (chief_node.py lines 24-46): `random.randint(1,3)` picks one of
the three branches — encoded as `chose : Fin 3`, branch `k+1` being `chose = k`
— and the chosen beta gets `error` added while the other two are returned
unchanged. -/
def new_state (chose : Fin 3) (error beta_car beta_cost beta_tt : ℝ) :
    ℝ × ℝ × ℝ :=
  match chose with
  | 0 => (beta_car + error, beta_cost, beta_tt)
  | 1 => (beta_car, beta_cost + error, beta_tt)
  | 2 => (beta_car, beta_cost, beta_tt + error)

/-- `acceptance_probability(old_cost, new_cost, t) = exp((new_cost - old_cost) / t)`
(chief_node.py lines 49-59). -/
noncomputable def acceptance_probability (old_cost new_cost t : ℝ) : ℝ :=
  Real.exp ((new_cost - old_cost) / t)

/-- The DECIDE test (chief_node.py lines 148-150): the proposal is accepted
exactly when `acceptance_probability(cost, cost_i, temp) > rand` where `rand`
is a fresh uniform draw. -/
def accepts (cost cost_i temp rand : ℝ) : Prop :=
  acceptance_probability cost cost_i temp > rand

/-! ## chief_node.py : ledger interaction of one round -/

/-- One parameter-distribution effect of the fan-out loop at chief_node.py
lines 133-135 (via `set_detail_to_node`). -/
inductive ChiefAction where
  | setBetasTo (worker key value : String)
  deriving DecidableEq

/-- The DISTRIBUTE loop (chief_node.py lines 133-135): one `set_detail_to_node`
call per element of `workers`. -/
def distribute_betas (betas : String) : List ChiefAction :=
  workers.map (fun w => ChiefAction.setBetasTo w "betas" betas)

/-- Modelled from the spec: `get_a_detail_written_by` (utils.iroha, which is
not under src/) polls the ledger for the detail a worker wrote, with no
built-in timeout, so it can block indefinitely (spec §5); `responses w = none`
models a worker that never publishes, in which case the call never returns. -/
def get_a_detail_written_by (responses : String → Option ℝ) (worker : String) :
    Option ℝ :=
  responses worker

/-- The COLLECT loop body (chief_node.py lines 138-146) over a worker list:
read each worker's cost in turn and sum them.  A read that never returns
(worker never responds) makes the whole round never complete (`none`); there
is no bounded retry and no error result. -/
def collect_costs : List String → (String → Option ℝ) → Option ℝ
  | [], _ => some 0
  | w :: ws, responses =>
    match get_a_detail_written_by responses w with
    | none => none
    | some c =>
      match collect_costs ws responses with
      | none => none
      | some s => some (c + s)

/-- The aggregate round cost when every worker responds: `cost_i = sum(all_cost)`
(chief_node.py line 146), where `env betas w` is the parsed cost published by
worker `w` for the proposed betas. -/
def round_cost (env : ℝ × ℝ × ℝ → String → ℝ) (betas : ℝ × ℝ × ℝ) : ℝ :=
  (workers.map (env betas)).sum

/-- `initial_cost = sum(all_cost)` (chief_node.py lines 106-113): the baseline
aggregate cost measured from the workers before the loop, where `env w` is the
parsed cost published by worker `w` for the seed betas. -/
def initial_cost (env : String → ℝ) : ℝ :=
  (workers.map env).sum

/-! ## chief_node.py : annealing state machine -/

/-- The mutable state of `main` that the annealing loop reads and writes:
the three betas, `cost`, and the four append-only trajectory lists. -/
structure AnnealState where
  beta_car : ℝ
  beta_cost : ℝ
  beta_tt : ℝ
  cost : ℝ
  solutions : List ℝ
  betas_car : List ℝ
  betas_cost : List ℝ
  betas_tt : List ℝ

/-- The state right before the `while` loop (chief_node.py lines 82-92 and
119-122): seed betas, `cost = 0`, and one initial entry appended to each
trajectory list (`solutions.append(cost)` appends the literal `0`, not
`initial_cost`). -/
def initState : AnnealState :=
  { beta_car := 0.00123
    beta_cost := 0.00664
    beta_tt := 0.006463
    cost := 0
    solutions := [0]
    betas_car := [0.00123]
    betas_cost := [0.00664]
    betas_tt := [0.006463] }

/-- The random draws consumed by one inner iteration: `random.randint(1,3)`
and `random.uniform(-0.01, 0.01)` inside `new_state`, and the fresh
`random.uniform(0, 1)` of the DECIDE test. -/
structure IterDraw where
  chose : Fin 3
  error : ℝ
  rand : ℝ

open Classical in
/-- One inner iteration of the annealing loop (chief_node.py lines 130-160) at
temperature `temp`: propose via `new_state`, collect `cost_i` from the workers,
and on `acceptance_probability(cost, cost_i, temp) > rand` update the betas and
`cost` and append to every trajectory list; otherwise leave the state unchanged. -/
noncomputable def annealStep (env : ℝ × ℝ × ℝ → String → ℝ) (temp : ℝ)
    (d : IterDraw) (s : AnnealState) : AnnealState :=
  let nb := new_state d.chose d.error s.beta_car s.beta_cost s.beta_tt
  let cost_i := round_cost env nb
  if acceptance_probability s.cost cost_i temp > d.rand then
    { beta_car := nb.1
      beta_cost := nb.2.1
      beta_tt := nb.2.2
      cost := cost_i
      solutions := s.solutions ++ [cost_i]
      betas_car := s.betas_car ++ [nb.1]
      betas_cost := s.betas_cost ++ [nb.2.1]
      betas_tt := s.betas_tt ++ [nb.2.2] }
  else s

/-- Running the annealing loop over a list of iterations, each with its
temperature and its random draws (the outer loop only changes the temperature
between blocks of inner iterations). -/
noncomputable def annealRun (env : ℝ × ℝ × ℝ → String → ℝ) :
    List (ℝ × IterDraw) → AnnealState → AnnealState
  | [], s => s
  | (t, d) :: ds, s => annealRun env ds (annealStep env t d s)

open Classical in
/-- The number of iterations of a run whose DECIDE test accepts. -/
noncomputable def acceptedCount (env : ℝ × ℝ × ℝ → String → ℝ) :
    List (ℝ × IterDraw) → AnnealState → ℕ
  | [], _ => 0
  | (t, d) :: ds, s =>
    (if acceptance_probability s.cost
        (round_cost env (new_state d.chose d.error s.beta_car s.beta_cost s.beta_tt))
        t > d.rand
     then 1 else 0)
    + acceptedCount env ds (annealStep env t d s)

/-! ## chief_node.py : cooling schedule -/

/-- `temp = 1.0` (chief_node.py line 123). -/
def temp0 : ℝ := 1.0

/-- `temp_min = 0.00001` (chief_node.py line 124). -/
def temp_min : ℝ := 0.00001

/-- `alpha = 0.9` (chief_node.py line 125). -/
def alphaFactor : ℝ := 0.9

/-- One COOL step, `temp = temp * alpha` (chief_node.py line 161). -/
def cool (alpha temp : ℝ) : ℝ := temp * alpha

/-- The temperature after `n` cooling steps, starting from `temp0`. -/
def tempAfter (alpha : ℝ) : ℕ → ℝ
  | 0 => temp0
  | n + 1 => cool alpha (tempAfter alpha n)

/-! ## helper lemmas -/

lemma tempAfter_eq_pow (alpha : ℝ) (n : ℕ) : tempAfter alpha n = alpha ^ n := by
  induction n with
  | zero => norm_num [tempAfter, temp0]
  | succ n ih => simp [tempAfter, cool, ih, pow_succ]

/-- The predicate "exactly one of the three coordinates differs". -/
def exactlyOneDiffers (a b : ℝ × ℝ × ℝ) : Prop :=
  (a.1 ≠ b.1 ∧ a.2.1 = b.2.1 ∧ a.2.2 = b.2.2) ∨
  (a.1 = b.1 ∧ a.2.1 ≠ b.2.1 ∧ a.2.2 = b.2.2) ∨
  (a.1 = b.1 ∧ a.2.1 = b.2.1 ∧ a.2.2 ≠ b.2.2)

lemma annealRun_solutions_length (env : ℝ × ℝ × ℝ → String → ℝ)
    (ds : List (ℝ × IterDraw)) :
    ∀ s : AnnealState,
      ((annealRun env ds s).solutions).length
        = s.solutions.length + acceptedCount env ds s := by
  induction ds with
  | nil => intro s; simp [annealRun, acceptedCount]
  | cons td ds ih =>
    intro s
    obtain ⟨t, d⟩ := td
    rw [annealRun, acceptedCount, ih]
    by_cases h : acceptance_probability s.cost
        (round_cost env (new_state d.chose d.error s.beta_car s.beta_cost s.beta_tt))
        t > d.rand
    · simp only [annealStep, if_pos h]
      simp
      omega
    · simp only [annealStep, if_neg h]
      simp

/-! ## Claim theorems -/

/-- C1: the DECIDE step accepts a proposal exactly when
`exp((new_cost - current_cost) / temperature)` exceeds the fresh uniform draw,
for every pair of costs and every positive temperature; and a strictly more
costly proposal at temperature 1.0 is always accepted, since the exponential
then exceeds every draw in [0,1). -/
theorem decide_accepts_iff_exp_gt_draw (cost cost_i temp rand : ℝ)
    (ht : 0 < temp) :
    (accepts cost cost_i temp rand ↔ rand < Real.exp ((cost_i - cost) / temp)) ∧
    (cost < cost_i → temp = 1 → 0 ≤ rand → rand < 1 →
      accepts cost cost_i temp rand) := by
  constructor
  · exact Iff.rfl
  · intro hlt h1 _ hr1
    have h2 : (1 : ℝ) < Real.exp ((cost_i - cost) / temp) := by
      rw [h1, div_one]
      exact Real.one_lt_exp_iff.mpr (by linarith)
    show rand < acceptance_probability cost cost_i temp
    unfold acceptance_probability
    linarith

/-- Witness for C1 at `cost = 0`, `cost_i = 1`, `temp = 1`, `rand = 1/2`. -/
theorem decide_accepts_iff_exp_gt_draw_witness :
    (0 : ℝ) < 1 ∧
    ((accepts 0 1 1 (1 / 2) ↔ (1 / 2 : ℝ) < Real.exp (((1 : ℝ) - 0) / 1)) ∧
     ((0 : ℝ) < 1 → (1 : ℝ) = 1 → (0 : ℝ) ≤ 1 / 2 → (1 / 2 : ℝ) < 1 →
       accepts 0 1 1 (1 / 2))) :=
  ⟨by norm_num, decide_accepts_iff_exp_gt_draw 0 1 1 (1 / 2) (by norm_num)⟩

/-- C2: for every cooling factor in (0,1) and every positive minimum
temperature, the temperature sequence produced by multiplying by the factor
after each inner block is (strictly) non-increasing, and some finite number of
cooling steps brings the temperature at or below the minimum, falsifying the
loop condition `temp > temp_min` and so terminating the outer loop. -/
theorem temperature_decreases_and_terminates (alpha tmin : ℝ)
    (h0 : 0 < alpha) (h1 : alpha < 1) (hm : 0 < tmin) :
    (∀ n, tempAfter alpha (n + 1) < tempAfter alpha n) ∧
    (∃ n, tempAfter alpha n ≤ tmin) := by
  constructor
  · intro n
    rw [tempAfter_eq_pow, tempAfter_eq_pow, pow_succ]
    exact mul_lt_of_lt_one_right (pow_pos h0 n) h1
  · obtain ⟨n, hn⟩ := exists_pow_lt_of_lt_one hm h1
    refine ⟨n, ?_⟩
    rw [tempAfter_eq_pow]
    exact hn.le

/-- Witness for C2 at the program's own constants `alpha = 0.9` and
`temp_min = 0.00001`. -/
theorem temperature_decreases_and_terminates_witness :
    (0 : ℝ) < alphaFactor ∧ alphaFactor < 1 ∧ (0 : ℝ) < temp_min ∧
    ((∀ n, tempAfter alphaFactor (n + 1) < tempAfter alphaFactor n) ∧
     (∃ n, tempAfter alphaFactor n ≤ temp_min)) :=
  ⟨by norm_num [alphaFactor], by norm_num [alphaFactor], by norm_num [temp_min],
   temperature_decreases_and_terminates alphaFactor temp_min
     (by norm_num [alphaFactor]) (by norm_num [alphaFactor])
     (by norm_num [temp_min])⟩

/-- C3 counterexample: immediately after initialization — zero proposals
evaluated, zero accepted — the `solutions` history already has one entry (the
initial `solutions.append(cost)` at line 122), so its length is not the number
of accepted proposals and the history is not empty before the first
acceptance. -/
theorem solutions_length_ne_accepted :
    ((annealRun (fun _ _ => 0) [] initState).solutions).length
      ≠ acceptedCount (fun _ _ => 0) [] initState := by
  simp [annealRun, acceptedCount, initState]

/-- C3 amended: at every point in the run, the length of the `solutions`
history equals the number of accepted proposals so far plus one, the extra
entry being the one appended at initialization before any proposal. -/
theorem solutions_length_eq_accepted_succ (env : ℝ × ℝ × ℝ → String → ℝ)
    (ds : List (ℝ × IterDraw)) :
    ((annealRun env ds initState).solutions).length
      = acceptedCount env ds initState + 1 := by
  rw [annealRun_solutions_length]
  simp [initState, Nat.add_comm]

/-- A 4097-character value, exceeding the documented 4096-character bound. -/
def big_value : String := String.mk (List.replicate 4097 'a')

/-- A concrete user, as in the module docstrings: David on the public domain. -/
def someUser : User :=
  { name := "david", domain := { id_name := "public", default_role := "default_role" } }

/-- C4 divergence: the code performs no size check.  `set_detail` with a
4097-character value still builds, signs and submits the transaction (no
`ValueTooLarge` failure), and `set_detail_to` fails for every value — with a
`TypeError` from concatenating the target's `Domain` object, not with
`ValueTooLarge`. -/
theorem set_detail_submits_oversized_value :
    4096 < big_value.length ∧
    set_detail someUser "personal information" big_value "private_key"
      = [TxAction.buildTx "david@public" "personal information" big_value,
         TxAction.signTx "private_key", TxAction.submitTx] ∧
    TxAction.submitTx ∈
      set_detail someUser "personal information" big_value "private_key" ∧
    set_detail_to someUser someUser "Age" big_value "private_key"
      = Except.error "TypeError: can only concatenate str to str" := by
  refine ⟨?_, rfl, ?_, rfl⟩
  · have h : big_value.length = 4097 := by
      show (List.replicate 4097 'a').length = 4097
      exact List.length_replicate 4097 'a'
    omega
  · simp [set_detail]

/-- C5: the COLLECT loop body evaluated on a round with one worker that never
responds: the read (modelled from the spec: unbounded poll, no timeout) never
returns, so the round never completes — it does not fail with any
`IncompleteRound` result, and there is no bounded retry.  With the program's
actual empty `workers` list, every round trivially completes with cost 0. -/
theorem collect_costs_blocks_no_incomplete_round :
    collect_costs ["worker1"] (fun _ => none) = none ∧
    (∀ responses : String → Option ℝ, collect_costs workers responses = some 0) :=
  ⟨rfl, fun _ => rfl⟩

/-- C6: the seed `cost` that the first DECIDE compares against equals the
initial measured baseline aggregate cost collected from the workers.  (Both
are 0: the code seeds `cost = 0` literally, and since `workers` is empty the
measured baseline `initial_cost` is also 0.) -/
theorem seed_cost_eq_measured_baseline (env : String → ℝ) :
    initState.cost = initial_cost env := by
  simp [initState, initial_cost, workers]

/-- C7 counterexample: `random.uniform(-0.01, 0.01)` can draw the offset 0, and
then `new_state` returns the input unchanged — no coordinate differs, so it is
false that exactly one coordinate differs for every outcome of the draws. -/
theorem new_state_zero_error_unchanged :
    new_state 0 0 1 2 3 = (1, 2, 3) ∧
    ¬ exactlyOneDiffers (1, 2, 3) (new_state 0 0 1 2 3) := by
  norm_num [new_state, exactlyOneDiffers]

/-- C7 amended: for every input and every outcome of the draws, `new_state`
returns the input with the offset added to exactly the one randomly chosen
coordinate and the other two unchanged; exactly one coordinate differs from
the input if and only if the offset is nonzero (when the offset is 0, no
coordinate differs). -/
theorem new_state_perturbs_one_coordinate (chose : Fin 3)
    (error bc bco btt : ℝ) :
    new_state chose error bc bco btt
      = (if chose = 0 then bc + error else bc,
         if chose = 1 then bco + error else bco,
         if chose = 2 then btt + error else btt) ∧
    (exactlyOneDiffers (bc, bco, btt) (new_state chose error bc bco btt)
      ↔ error ≠ 0) := by
  refine ⟨?_, ?_, ?_⟩
  · match chose with
    | 0 =>
      show (bc + error, bco, btt) = _
      rw [if_pos rfl, if_neg (by decide), if_neg (by decide)]
    | 1 =>
      show (bc, bco + error, btt) = _
      rw [if_neg (by decide), if_pos rfl, if_neg (by decide)]
    | 2 =>
      show (bc, bco, btt + error) = _
      rw [if_neg (by decide), if_neg (by decide), if_pos rfl]
  · intro hd he0
    subst he0
    have hz : new_state chose (0 : ℝ) bc bco btt = (bc, bco, btt) := by
      match chose with
      | 0 => show (bc + 0, bco, btt) = _; norm_num
      | 1 => show (bc, bco + 0, btt) = _; norm_num
      | 2 => show (bc, bco, btt + 0) = _; norm_num
    rw [hz] at hd
    rcases hd with ⟨h1, _, _⟩ | ⟨_, h2, _⟩ | ⟨_, _, h3⟩
    · exact h1 rfl
    · exact h2 rfl
    · exact h3 rfl
  · intro he
    have hne : ∀ x : ℝ, x ≠ x + error := fun x hx => he (by linarith)
    match chose with
    | 0 => exact Or.inl ⟨hne bc, rfl, rfl⟩
    | 1 => exact Or.inr (Or.inl ⟨rfl, hne bco, rfl⟩)
    | 2 => exact Or.inr (Or.inr ⟨rfl, rfl, hne btt⟩)

/-- C8: `acceptance_probability` is strictly increasing in the new cost (hence
in the cost delta) for every fixed positive temperature, and strictly
decreasing in the temperature for every fixed positive cost delta. -/
theorem acceptance_probability_monotone (old n1 n2 t d t1 t2 : ℝ)
    (ht : 0 < t) (hn : n1 < n2) (hd : 0 < d) (ht1 : 0 < t1) (ht12 : t1 < t2) :
    acceptance_probability old n1 t < acceptance_probability old n2 t ∧
    acceptance_probability old (old + d) t2
      < acceptance_probability old (old + d) t1 := by
  constructor
  · unfold acceptance_probability
    exact Real.exp_lt_exp.mpr ((div_lt_div_iff_of_pos_right ht).mpr (by linarith))
  · unfold acceptance_probability
    have hsimp : old + d - old = d := by ring
    rw [hsimp]
    exact Real.exp_lt_exp.mpr (div_lt_div_of_pos_left hd ht1 ht12)

/-- Witness for C8 at `old = 0`, `n1 = 0`, `n2 = 1`, `t = 1`, `d = 1`,
`t1 = 1`, `t2 = 2`. -/
theorem acceptance_probability_monotone_witness :
    (0 : ℝ) < 1 ∧ (0 : ℝ) < 1 ∧ (0 : ℝ) < 1 ∧ (0 : ℝ) < 1 ∧ (1 : ℝ) < 2 ∧
    (acceptance_probability 0 0 1 < acceptance_probability 0 1 1 ∧
     acceptance_probability 0 (0 + 1) 2 < acceptance_probability 0 (0 + 1) 1) :=
  ⟨by norm_num, by norm_num, by norm_num, by norm_num, by norm_num,
   acceptance_probability_monotone 0 0 1 1 1 1 2 (by norm_num) (by norm_num)
     (by norm_num) (by norm_num) (by norm_num)⟩

/-- C9: the module-level `workers` list is empty, so the parameter-distribution
loop produces no actions, the baseline and every round's aggregate cost are the
sum of an empty list, i.e. 0, and the collect loop over `workers` always
completes immediately with cost 0. -/
theorem workers_empty_all_rounds_zero :
    workers = [] ∧
    (∀ betas : String, distribute_betas betas = []) ∧
    (∀ env : String → ℝ, initial_cost env = 0) ∧
    (∀ (env : ℝ × ℝ × ℝ → String → ℝ) (betas : ℝ × ℝ × ℝ),
      round_cost env betas = 0) ∧
    (∀ responses : String → Option ℝ, collect_costs workers responses = some 0) :=
  ⟨rfl, fun _ => rfl, fun _ => rfl, fun _ _ => rfl, fun _ => rfl⟩

/-- C10: for every `User` (whose domain's `id_name` is a string, as the
constructor establishes), `get_all_details` raises an `AttributeError` while
evaluating `self.domain.id_name.id_name`, before any query is built, signed or
sent, and never returns the account's details. -/
theorem get_all_details_raises (u : User) (private_key : String) :
    get_all_details u private_key
      = Except.error "AttributeError: str object has no attribute id_name" ∧
    ∀ acts : List TxAction, get_all_details u private_key ≠ Except.ok acts :=
  ⟨rfl, fun _ h => Except.noConfusion h⟩

end BSMD
